import Mathlib

/-!
Verification of the pdf2docx MCP server's progress bridge.

Shallow embedding of `src/python/mcp_server.py`:

* `pageLogMatch` models `_PAGE_LOG_RE.search` for the pattern `\((\d+)/(\d+)\)`
  (`\d` is modelled as an ASCII decimal digit; pdf2docx's log lines are ASCII).
  Since `/` and `)` are not digits, the regex engine's greedy `\d+` never needs
  to backtrack, so maximal-munch scanning is an exact model of the search.
* `Handler` models `_ProgressLogHandler` (fields `total`, `_ticks`, `_thread_id`);
  `Handler.emit` models `emit`, with `record.msg` standing for the formatted
  message `self.format(record)`.
* `convert` models the `convert` tool.  External library calls are abstracted
  as fields of `Env` (file existence, the fitz document, the outcome of the
  blocking `cv.convert` call, the log records emitted to the root logger during
  that call, the output file size, the measured duration).  `asyncio` delivery
  is modelled by the submission-order list of `(current, total)` pairs passed to
  `ctx.report_progress`.  Float rounding (`round(x, 2)`, `round(dt, 1)`) is
  abstracted by exact rationals.
-/

/-- ASCII decimal digit, modelling `\d` on pdf2docx's ASCII log lines. -/
def isDig (c : Char) : Bool := c.isDigit

/-- Consume one expected character from the front of the input. -/
def expectChar (c : Char) : List Char → Option (List Char)
  | [] => none
  | x :: xs => if x = c then some xs else none

/-- Consume a nonempty maximal digit run (`\d+`) from the front of the input. -/
def expectDigits (l : List Char) : Option (List Char) :=
  if (l.takeWhile isDig).isEmpty then none else some (l.dropWhile isDig)

/-- Does the input start with a match of `\((\d+)/(\d+)\)`? -/
def matchAt (l : List Char) : Bool :=
  (((((expectChar '(' l).bind expectDigits).bind
      (expectChar '/')).bind expectDigits).bind (expectChar ')')).isSome

/-- Try the matcher `p` at every start position, as `re.search` does. -/
def searchBy (p : List Char → Bool) : List Char → Bool
  | [] => false
  | c :: cs => p (c :: cs) || searchBy p cs

/-- Models `_PAGE_LOG_RE.search(msg) is not None` for
`_PAGE_LOG_RE = re.compile(r"\((\d+)/(\d+)\)")`. -/
def pageLogMatch (s : String) : Bool := searchBy matchAt s.data

/-- The line contains, anywhere in its text, a bracketed pair of digit
sequences separated by a slash (the substring shape the regex recognizes). -/
def ContainsMarker (s : String) : Prop :=
  ∃ pre d1 d2 post : List Char,
    s.data = pre ++ '(' :: (d1 ++ '/' :: (d2 ++ ')' :: post)) ∧
    d1 ≠ [] ∧ d2 ≠ [] ∧ (∀ c ∈ d1, isDig c = true) ∧ (∀ c ∈ d2, isDig c = true)

/-- Modelled from the spec: a nonempty digit run that denotes a POSITIVE
integer, i.e. contains a nonzero digit. -/
def expectPosDigits (l : List Char) : Option (List Char) :=
  let d := l.takeWhile isDig
  if d.isEmpty then none
  else if d.all (fun c => c = '0') then none
  else some (l.dropWhile isDig)

/-- Modelled from the spec: the input starts with a bracketed pair of
positive integers separated by a slash. -/
def posMatchAt (l : List Char) : Bool :=
  (((((expectChar '(' l).bind expectPosDigits).bind
      (expectChar '/')).bind expectPosDigits).bind (expectChar ')')).isSome

/-- Modelled from the spec: the line contains, anywhere in its text, a
bracketed pair of positive integers separated by a slash. -/
def containsPositivePairMarker (s : String) : Bool := searchBy posMatchAt s.data

/-- A log record as seen by the handler: the emitting thread's id and the
formatted message text. -/
structure LogRecord where
  thread : Nat
  msg : String
deriving DecidableEq, Repr

/-- Models `_ProgressLogHandler`'s mutable state: `self.total`, `self._ticks`,
`self._thread_id`. -/
structure Handler where
  total : Nat
  ticks : Nat
  threadId : Option Nat
deriving DecidableEq, Repr

/-- Models `_ProgressLogHandler.__init__`: `total = pages_to_convert * 2`,
`_ticks = 0`, `_thread_id = None`. -/
def Handler.init (pages_to_convert : Nat) : Handler :=
  { total := pages_to_convert * 2, ticks := 0, threadId := none }

/-- Models `bind_thread`, called from inside the worker thread. -/
def Handler.bindThread (h : Handler) (tid : Nat) : Handler :=
  { h with threadId := some tid }

/-- Models `emit`: drop the record if unbound or from a foreign thread;
otherwise, on a regex match, bump the clamped tick counter and schedule a
`report_progress(_ticks, total)` notification. -/
def Handler.emit (h : Handler) (r : LogRecord) : Handler × Option (Nat × Nat) :=
  match h.threadId with
  | none => (h, none)
  | some tid =>
    if r.thread ≠ tid then (h, none)
    else if pageLogMatch r.msg then
      let t := min (h.ticks + 1) h.total
      ({ h with ticks := t }, some (t, h.total))
    else (h, none)

/-- Process a sequence of log records, collecting the scheduled notifications
in submission order. -/
def Handler.emitAll : Handler → List LogRecord → Handler × List (Nat × Nat)
  | h, [] => (h, [])
  | h, r :: rs =>
    let step := h.emit r
    let rest := Handler.emitAll step.1 rs
    (rest.1, step.2.toList ++ rest.2)

/-- ASCII whitespace, modelling what `str.strip()` and `int()` strip. -/
def isPySpace (c : Char) : Bool :=
  c = ' ' || c = '\t' || c = '\n' || c = '\x0d' || c = '\x0b' || c = '\x0c'

/-- Models Python `str.strip()` (ASCII whitespace). -/
def pyStrip (l : List Char) : List Char :=
  ((l.dropWhile isPySpace).reverse.dropWhile isPySpace).reverse

/-- Numeric value of a digit run. -/
def digitsToNat (l : List Char) : Nat :=
  l.foldl (fun a c => a * 10 + (c.toNat - 48)) 0

/-- Models Python `int(s)` on ASCII text: optional surrounding whitespace,
optional sign, then a nonempty digit run; anything else raises `ValueError`
(digit-group underscores and non-ASCII digits are outside the modelled
inputs). -/
def pyInt (l : List Char) : Except String Int :=
  let err : Except String Int :=
    .error ("invalid literal for int() with base 10: " ++ String.mk l)
  match pyStrip l with
  | '+' :: rest =>
    if rest ≠ [] ∧ rest.all isDig then .ok (digitsToNat rest) else err
  | '-' :: rest =>
    if rest ≠ [] ∧ rest.all isDig then .ok (-(digitsToNat rest : Int)) else err
  | rest =>
    if rest ≠ [] ∧ rest.all isDig then .ok (digitsToNat rest) else err

/-- Models Python `s.split(sep)` for a one-character separator: splits at
every occurrence, keeping empty pieces; `"".split(sep) == [""]`. -/
def splitOnChar (sep : Char) : List Char → List (List Char)
  | [] => [[]]
  | c :: cs =>
    if c = sep then [] :: splitOnChar sep cs
    else
      match splitOnChar sep cs with
      | [] => [[c]]
      | p :: ps => (c :: p) :: ps

/-- Models `list(range(a, b))`. -/
def pyRangeList (a b : Int) : List Int :=
  (List.range (b - a).toNat).map (fun i => a + (i : Int))

/-- Models the dash branch of the `pages` parser:
`start, end = pages.split("-"); pages_list = list(range(int(start), int(end) + 1))`.
Unpacking a split of length other than two raises `ValueError`. -/
def parseRange (s : String) : Except String (List Int) :=
  match splitOnChar '-' s.data with
  | [a, b] => do
    let x ← pyInt a
    let y ← pyInt b
    .ok (pyRangeList x (y + 1))
  | [_] => .error "not enough values to unpack (expected 2, got 1)"
  | [] => .error "not enough values to unpack (expected 2, got 0)"
  | _ => .error "too many values to unpack (expected 2)"

/-- Models the comma branch of the `pages` parser:
`pages_list = [int(p.strip()) for p in pages.split(",")]`. -/
def parseCommas (s : String) : Except String (List Int) :=
  (splitOnChar ',' s.data).mapM (fun p => pyInt (pyStrip p))

/-- Models lines 124-128: the dash branch is taken whenever `"-" in pages`,
otherwise the comma branch. -/
def parsePagesStr (s : String) : Except String (List Int) :=
  if s.data.contains '-' then parseRange s else parseCommas s

/-- Models lines 122-128: `pages_list = None` unless `pages` is truthy
(non-`None` and nonempty). -/
def parsePagesOpt (pages : Option String) : Except String (Option (List Int)) :=
  match pages with
  | none => .ok none
  | some s => if s = "" then .ok none else (parsePagesStr s).map some

/-- Models line 142:
`pages_to_convert = len(pages_list) if pages_list else total_pages`
(`pages_list` is falsy when `None` or empty). -/
def pagesToConvertOf (pages_list : Option (List Int)) (total_pages : Nat) : Nat :=
  match pages_list with
  | some l => if l.isEmpty then total_pages else l.length
  | none => total_pages

/-- The fitz document as the code observes it: `doc.needs_pass`,
`doc.authenticate(pw)`, `doc.page_count`. -/
structure FitzDoc where
  needsPass : Bool
  authOk : String → Bool
  pageCount : Nat

/-- The environment of one `convert` invocation: everything the surrounding
system supplies to the code under test. -/
structure Env where
  /-- `os.path.exists(pdf_path)` -/
  pdfExists : Bool
  /-- the document opened by `fitz.open(pdf_path)` -/
  doc : FitzDoc
  /-- whether a progress `ctx` was passed (`ctx` truthiness) -/
  hasCtx : Bool
  /-- `threading.current_thread().ident` of the worker thread -/
  workerThread : Nat
  /-- records reaching the root logger while the blocking call runs -/
  logRecords : List LogRecord
  /-- outcome of the blocking `cv.convert` call: `.ok` or the raised error -/
  conversion : Except String Unit
  /-- `os.path.getsize(output_path)` after a successful conversion -/
  outputSizeBytes : Nat
  /-- measured wall-clock duration of the call -/
  durationSeconds : ℚ

/-- The `"pages"` key of the success dictionary:
`pages_list if pages_list else "all"`. -/
inductive PagesField
  | list (l : List Int)
  | all
deriving DecidableEq, Repr

/-- The dictionary returned by `convert`; absent keys are `none`. -/
structure ConvertResult where
  success : Bool
  input_path : String
  output_path : Option String := none
  size_mb : Option ℚ := none
  pages : Option PagesField := none
  total_pages : Option Nat := none
  pages_converted : Option Nat := none
  duration_seconds : Option ℚ := none
  error : Option String := none
  message : String
deriving DecidableEq, Repr

/-- Lines 108-112: the file-not-found dictionary. -/
def dictNotFound (pdf_path : String) : ConvertResult :=
  { success := false, input_path := pdf_path,
    message := "PDF file not found: " ++ pdf_path }

/-- Lines 135-139: the invalid-password dictionary. -/
def dictInvalidPassword (pdf_path : String) : ConvertResult :=
  { success := false, input_path := pdf_path,
    message := "Invalid password for encrypted PDF" }

/-- Lines 205-211: the dictionary built by the outer `except` clause. -/
def dictException (pdf_path output_path e : String) : ConvertResult :=
  { success := false, input_path := pdf_path, output_path := some output_path,
    error := some e, message := "Error converting PDF: " ++ e }

/-- Lines 114-116: `output_path` defaults to the input path with its
extension replaced by `.docx`.  `os.path.splitext` is modelled for POSIX
paths: drop from the last dot of the last component, unless that dot leads
the component. -/
def splitextRoot (p : String) : String :=
  let cs := p.data
  let base := (splitOnChar '/' cs).getLastD []
  let ext := (base.dropWhile (fun c => c = '.')).reverse.takeWhile (fun c => c ≠ '.')
  if ext.length < (base.dropWhile (fun c => c = '.')).length then
    String.mk (cs.take (cs.length - ext.length - 1))
  else
    p

/-- The resolved output path of a `convert` call. -/
def resolvedOutputPath (pdf_path : String) (output_path0 : Option String) : String :=
  match output_path0 with
  | none => splitextRoot pdf_path ++ ".docx"
  | some o => o

/-- Python truthiness of an optional string argument. -/
def pyTruthyStr : Option String → Bool
  | none => false
  | some s => decide (s ≠ "")

/-- Everything observable about one `convert` invocation: the returned
dictionary, the `report_progress` pairs in submission order, and ghost
flags recording whether the handler was attached to the root logger,
whether it was detached again, whether the worker thread was dispatched,
and the `progress_total` in force at dispatch. -/
structure ConvertTrace where
  result : ConvertResult
  notifications : List (Nat × Nat)
  handlerWasAttached : Bool
  handlerDetached : Bool
  workerStarted : Bool
  progressTotal : Option Nat
deriving Repr

/-- Lines 187-202: the success dictionary. -/
def dictSuccess (env : Env) (pdf_path output_path : String)
    (pages_list : Option (List Int)) (total_pages pages_to_convert : Nat) :
    ConvertResult :=
  { success := true, input_path := pdf_path, output_path := some output_path,
    size_mb := some ((env.outputSizeBytes : ℚ) / (1024 * 1024)),
    pages := some (match pages_list with
      | some l => if l.isEmpty then PagesField.all else PagesField.list l
      | none => PagesField.all),
    total_pages := some total_pages,
    pages_converted := some pages_to_convert,
    duration_seconds := some env.durationSeconds,
    message := "Successfully converted " ++ toString pages_to_convert ++
      " page(s) to " ++ output_path ++ " in " ++ toString env.durationSeconds ++ "s" }

/-- Shallow embedding of the `convert` tool (lines 78-211), following the
source's control flow.  `os.makedirs`, `fitz.open` and `os.path.getsize`
are abstracted as succeeding; the blocking conversion call's outcome and
the log records it produces come from `env`. -/
def convert (env : Env) (pdf_path : String) (output_path0 : Option String)
    (pages : Option String) (password : Option String) : ConvertTrace :=
  if env.pdfExists = false then
    ⟨dictNotFound pdf_path, [], false, false, false, none⟩
  else
    let output_path := resolvedOutputPath pdf_path output_path0
    match parsePagesOpt pages with
    | .error e =>
      ⟨dictException pdf_path output_path e, [], false, false, false, none⟩
    | .ok pages_list =>
      if pyTruthyStr password && env.doc.needsPass
          && !(env.doc.authOk (password.getD "")) then
        ⟨dictInvalidPassword pdf_path, [], false, false, false, none⟩
      else
        let total_pages := env.doc.pageCount
        let pages_to_convert := pagesToConvertOf pages_list total_pages
        let progress_total := pages_to_convert * 2
        let notifs0 : List (Nat × Nat) :=
          if env.hasCtx then [(0, progress_total)] else []
        let handlerNotifs : List (Nat × Nat) :=
          if env.hasCtx then
            (((Handler.init pages_to_convert).bindThread
                env.workerThread).emitAll env.logRecords).2
          else []
        match env.conversion with
        | .error e =>
          ⟨dictException pdf_path output_path e, notifs0 ++ handlerNotifs,
            env.hasCtx, env.hasCtx, true, some progress_total⟩
        | .ok _ =>
          let finalNotifs : List (Nat × Nat) :=
            if env.hasCtx then [(progress_total, progress_total)] else []
          ⟨dictSuccess env pdf_path output_path pages_list total_pages
              pages_to_convert,
            notifs0 ++ handlerNotifs ++ finalNotifs,
            env.hasCtx, env.hasCtx, true, some progress_total⟩

/-- A two-page unencrypted document converted with a progress context and
no matching log lines. -/
def envOkN2 : Env :=
  { pdfExists := true, doc := ⟨false, fun _ => false, 2⟩, hasCtx := true,
    workerThread := 7, logRecords := [], conversion := .ok (),
    outputSizeBytes := 0, durationSeconds := 0 }

/-- A two-page unencrypted document with a progress context whose blocking
conversion call raises. -/
def envFailingConv : Env :=
  { pdfExists := true, doc := ⟨false, fun _ => false, 2⟩, hasCtx := true,
    workerThread := 7, logRecords := [⟨7, "(1/2) Page 1"⟩],
    conversion := .error "conversion failed", outputSizeBytes := 0,
    durationSeconds := 0 }

/-- A protected (encrypted) document, called without any credential. -/
def envEncryptedNoPw : Env :=
  { pdfExists := true, doc := ⟨true, fun _ => true, 5⟩, hasCtx := false,
    workerThread := 0, logRecords := [],
    conversion := .error "cannot convert encrypted file",
    outputSizeBytes := 0, durationSeconds := 0 }

/-- A nonexistent input file. -/
def envMissingFile : Env :=
  { pdfExists := false, doc := ⟨false, fun _ => false, 0⟩, hasCtx := false,
    workerThread := 0, logRecords := [], conversion := .ok (),
    outputSizeBytes := 0, durationSeconds := 0 }

/-- A protected document with a wrong credential supplied. -/
def envEncryptedWrongPw : Env :=
  { pdfExists := true, doc := ⟨true, fun _ => false, 5⟩, hasCtx := false,
    workerThread := 0, logRecords := [], conversion := .ok (),
    outputSizeBytes := 0, durationSeconds := 0 }

/-- A document whose page count is zero, with a progress context. -/
def envZeroPages : Env :=
  { pdfExists := true, doc := ⟨false, fun _ => false, 0⟩, hasCtx := true,
    workerThread := 3, logRecords := [], conversion := .ok (),
    outputSizeBytes := 0, durationSeconds := 0 }

theorem expectChar_eq_some {c : Char} {l r : List Char} :
    expectChar c l = some r ↔ l = c :: r := by
  cases l with
  | nil => simp [expectChar]
  | cons x xs =>
    by_cases hx : x = c
    · subst hx; simp [expectChar]
    · simp [expectChar, hx]

theorem expectDigits_eq_some {l r : List Char} (h : expectDigits l = some r) :
    ∃ d, l = d ++ r ∧ d ≠ [] ∧ ∀ c ∈ d, isDig c = true := by
  unfold expectDigits at h
  split at h
  · exact absurd h (by simp)
  · rename_i hne
    have hr : l.dropWhile isDig = r := by injection h
    refine ⟨l.takeWhile isDig, ?_, ?_, fun c hc => List.mem_takeWhile_imp hc⟩
    · rw [← hr]; exact (List.takeWhile_append_dropWhile isDig l).symm
    · intro hcon
      exact hne (by simp [hcon])

theorem takeWhile_all_append {p : Char → Bool} {d t : List Char}
    (hd : ∀ c ∈ d, p c = true) (ht : ∀ c, t.head? = some c → p c = false) :
    (d ++ t).takeWhile p = d ∧ (d ++ t).dropWhile p = t := by
  induction d with
  | nil =>
    cases t with
    | nil => simp
    | cons a t' =>
      have ha := ht a rfl
      simp [List.takeWhile_cons, List.dropWhile_cons, ha]
  | cons a d' ih =>
    have ha : p a = true := hd a (by simp)
    have ih' := ih (fun c hc => hd c (by simp [hc]))
    simp [List.takeWhile_cons, List.dropWhile_cons, ha, ih'.1, ih'.2]

theorem expectDigits_append {d t : List Char} (hd : d ≠ [])
    (hall : ∀ c ∈ d, isDig c = true)
    (ht : ∀ c, t.head? = some c → isDig c = false) :
    expectDigits (d ++ t) = some t := by
  obtain ⟨h1, h2⟩ := takeWhile_all_append hall ht
  unfold expectDigits
  rw [h1, h2]
  simp [hd]

theorem matchAt_iff {l : List Char} :
    matchAt l = true ↔
      ∃ d1 d2 post, l = '(' :: (d1 ++ '/' :: (d2 ++ ')' :: post)) ∧
        d1 ≠ [] ∧ d2 ≠ [] ∧ (∀ c ∈ d1, isDig c = true) ∧
        (∀ c ∈ d2, isDig c = true) := by
  unfold matchAt
  rw [Option.isSome_iff_exists]
  constructor
  · rintro ⟨r5, hx⟩
    rw [Option.bind_eq_some] at hx
    obtain ⟨r4, h4, h5⟩ := hx
    rw [Option.bind_eq_some] at h4
    obtain ⟨r3, h3, h4⟩ := h4
    rw [Option.bind_eq_some] at h3
    obtain ⟨r2, h2, h3⟩ := h3
    rw [Option.bind_eq_some] at h2
    obtain ⟨r1, h1, h2⟩ := h2
    obtain rfl := expectChar_eq_some.mp h1
    obtain ⟨d1, rfl, hd1ne, hd1⟩ := expectDigits_eq_some h2
    obtain rfl := expectChar_eq_some.mp h3
    obtain ⟨d2, rfl, hd2ne, hd2⟩ := expectDigits_eq_some h4
    obtain rfl := expectChar_eq_some.mp h5
    exact ⟨d1, d2, r5, rfl, hd1ne, hd2ne, hd1, hd2⟩
  · rintro ⟨d1, d2, post, rfl, hd1ne, hd2ne, hd1, hd2⟩
    have e1 : expectChar '(' ('(' :: (d1 ++ '/' :: (d2 ++ ')' :: post))) =
        some (d1 ++ '/' :: (d2 ++ ')' :: post)) := expectChar_eq_some.mpr rfl
    have e2 : expectDigits (d1 ++ '/' :: (d2 ++ ')' :: post)) =
        some ('/' :: (d2 ++ ')' :: post)) := by
      refine expectDigits_append hd1ne hd1 ?_
      intro c hc
      have : c = '/' := by simpa using hc.symm
      subst this; decide
    have e3 : expectChar '/' ('/' :: (d2 ++ ')' :: post)) =
        some (d2 ++ ')' :: post) := expectChar_eq_some.mpr rfl
    have e4 : expectDigits (d2 ++ ')' :: post) = some (')' :: post) := by
      refine expectDigits_append hd2ne hd2 ?_
      intro c hc
      have : c = ')' := by simpa using hc.symm
      subst this; decide
    have e5 : expectChar ')' (')' :: post) = some post := expectChar_eq_some.mpr rfl
    exact ⟨post, by rw [e1, Option.some_bind, e2, Option.some_bind, e3,
      Option.some_bind, e4, Option.some_bind, e5]⟩

theorem searchBy_iff_exists {p : List Char → Bool} (hp : p [] = false)
    (l : List Char) :
    searchBy p l = true ↔ ∃ pre suf, l = pre ++ suf ∧ p suf = true := by
  induction l with
  | nil =>
    simp only [searchBy]
    constructor
    · intro h; exact absurd h (by simp)
    · rintro ⟨pre, suf, h, hsuf⟩
      have : suf = [] := (List.append_eq_nil.mp h.symm).2
      subst this
      rw [hp] at hsuf
      exact absurd hsuf (by simp)
  | cons c cs ih =>
    simp only [searchBy, Bool.or_eq_true]
    constructor
    · rintro (h | h)
      · exact ⟨[], c :: cs, rfl, h⟩
      · obtain ⟨pre, suf, rfl, hsuf⟩ := ih.mp h
        exact ⟨c :: pre, suf, rfl, hsuf⟩
    · rintro ⟨pre, suf, h, hsuf⟩
      cases pre with
      | nil =>
        left
        have : suf = c :: cs := by simpa using h.symm
        rw [← this]; exact hsuf
      | cons a pre' =>
        right
        have hcs : cs = pre' ++ suf := by
          have := h
          simp only [List.cons_append, List.cons.injEq] at this
          exact this.2
        exact ih.mpr ⟨pre', suf, hcs, hsuf⟩

theorem matchAt_nil : matchAt [] = false := by rfl

theorem pageLogMatch_iff {s : String} :
    pageLogMatch s = true ↔ ContainsMarker s := by
  unfold pageLogMatch ContainsMarker
  rw [searchBy_iff_exists matchAt_nil]
  constructor
  · rintro ⟨pre, suf, hs, hm⟩
    obtain ⟨d1, d2, post, rfl, hd1ne, hd2ne, hd1, hd2⟩ := matchAt_iff.mp hm
    exact ⟨pre, d1, d2, post, hs, hd1ne, hd2ne, hd1, hd2⟩
  · rintro ⟨pre, d1, d2, post, hs, hd1ne, hd2ne, hd1, hd2⟩
    exact ⟨pre, _, hs, matchAt_iff.mpr ⟨d1, d2, post, rfl, hd1ne, hd2ne, hd1, hd2⟩⟩

/-- C7 (amended): the tick parser is a pure predicate on one log line; it
reports a match exactly when the line contains, anywhere in its text, a
bracketed pair of digit sequences (nonnegative integers, a zero value
allowed) separated by a slash. -/
theorem tick_parser_characterization :
    ∀ s : String, pageLogMatch s = true ↔ ContainsMarker s :=
  fun _ => pageLogMatch_iff

/-- C7 counterexample: the line `(0/0)` contains no bracketed pair of
POSITIVE integers, yet `_PAGE_LOG_RE.search` matches it, because `\d+`
also accepts digit runs denoting zero. -/
theorem tick_parser_matches_zero_pair :
    pageLogMatch "(0/0)" = true ∧ containsPositivePairMarker "(0/0)" = false :=
  ⟨by decide, by decide⟩

theorem emit_total (h : Handler) (r : LogRecord) :
    (h.emit r).1.total = h.total := by
  unfold Handler.emit
  cases hT : h.threadId with
  | none => rfl
  | some tid =>
    by_cases ht : r.thread ≠ tid
    · simp [ht]
    · by_cases hm : pageLogMatch r.msg
      · simp [ht, hm]
      · simp [ht, hm]

theorem emit_threadId (h : Handler) (r : LogRecord) :
    (h.emit r).1.threadId = h.threadId := by
  unfold Handler.emit
  cases hT : h.threadId with
  | none => exact hT
  | some tid =>
    by_cases ht : r.thread ≠ tid
    · simp [ht, hT]
    · by_cases hm : pageLogMatch r.msg
      · simp [ht, hm, hT]
      · simp [ht, hm, hT]

theorem emit_notif_total (h : Handler) (r : LogRecord) :
    ∀ p ∈ (h.emit r).2.toList, p.2 = h.total := by
  unfold Handler.emit
  cases hT : h.threadId with
  | none => simp
  | some tid =>
    by_cases ht : r.thread ≠ tid
    · simp [ht]
    · by_cases hm : pageLogMatch r.msg
      · simp [ht, hm]
      · simp [ht, hm]

theorem emit_ticks_le (h : Handler) (r : LogRecord) (hle : h.ticks ≤ h.total) :
    (h.emit r).1.ticks ≤ h.total := by
  unfold Handler.emit
  cases hT : h.threadId with
  | none => exact hle
  | some tid =>
    by_cases ht : r.thread ≠ tid
    · simp [ht]; exact hle
    · by_cases hm : pageLogMatch r.msg
      · simp [ht, hm]
      · simp [ht, hm]; exact hle

theorem emit_ticks_mono (h : Handler) (r : LogRecord) (hle : h.ticks ≤ h.total) :
    h.ticks ≤ (h.emit r).1.ticks := by
  unfold Handler.emit
  cases hT : h.threadId with
  | none => exact le_refl _
  | some tid =>
    by_cases ht : r.thread ≠ tid
    · simp [ht]
    · by_cases hm : pageLogMatch r.msg
      · simp [ht, hm]
        exact hle
      · simp [ht, hm]

theorem emit_ticks_match (h : Handler) (r : LogRecord)
    (hb : h.threadId = some r.thread) (hm : pageLogMatch r.msg = true) :
    (h.emit r).1.ticks = min (h.ticks + 1) h.total := by
  unfold Handler.emit
  rw [hb]
  simp [hm]

theorem emit_ticks_nomatch (h : Handler) (r : LogRecord)
    (hd : h.threadId ≠ some r.thread ∨ pageLogMatch r.msg = false) :
    (h.emit r).1.ticks = h.ticks := by
  unfold Handler.emit
  cases hT : h.threadId with
  | none => rfl
  | some tid =>
    by_cases ht : r.thread ≠ tid
    · simp [ht]
    · push_neg at ht
      subst ht
      rcases hd with hd | hd
      · exact absurd hT hd
      · simp [hd]

theorem emit_drop (h : Handler) (r : LogRecord)
    (hd : h.threadId = none ∨ h.threadId ≠ some r.thread) :
    h.emit r = (h, none) := by
  unfold Handler.emit
  cases hT : h.threadId with
  | none => rfl
  | some tid =>
    rcases hd with hd | hd
    · rw [hT] at hd; exact absurd hd (by simp)
    · rw [hT] at hd
      have ht : r.thread ≠ tid := fun he => hd (by rw [he])
      simp [ht]

theorem emitAll_cons (h : Handler) (r : LogRecord) (rs : List LogRecord) :
    h.emitAll (r :: rs) =
      (((h.emit r).1.emitAll rs).1,
        (h.emit r).2.toList ++ ((h.emit r).1.emitAll rs).2) := rfl

theorem emitAll_total (h : Handler) (rs : List LogRecord) :
    (h.emitAll rs).1.total = h.total := by
  induction rs generalizing h with
  | nil => rfl
  | cons r rs ih =>
    rw [emitAll_cons]
    show ((h.emit r).1.emitAll rs).1.total = h.total
    rw [ih, emit_total]

theorem emitAll_notif_total (h : Handler) (rs : List LogRecord) :
    ∀ p ∈ (h.emitAll rs).2, p.2 = h.total := by
  induction rs generalizing h with
  | nil => simp [Handler.emitAll]
  | cons r rs ih =>
    intro p hp
    rw [emitAll_cons] at hp
    rw [List.mem_append] at hp
    rcases hp with hp | hp
    · exact emit_notif_total h r p hp
    · rw [← emit_total h r]
      exact ih (h.emit r).1 p hp

theorem emitAll_ticks_le (h : Handler) (rs : List LogRecord)
    (hle : h.ticks ≤ h.total) : (h.emitAll rs).1.ticks ≤ h.total := by
  induction rs generalizing h with
  | nil => exact hle
  | cons r rs ih =>
    rw [emitAll_cons]
    show ((h.emit r).1.emitAll rs).1.ticks ≤ h.total
    have h1 : (h.emit r).1.ticks ≤ (h.emit r).1.total := by
      rw [emit_total]; exact emit_ticks_le h r hle
    have := ih (h.emit r).1 h1
    rwa [emit_total] at this

theorem emitAll_ticks_mono (h : Handler) (rs : List LogRecord)
    (hle : h.ticks ≤ h.total) : h.ticks ≤ (h.emitAll rs).1.ticks := by
  induction rs generalizing h with
  | nil => exact le_refl _
  | cons r rs ih =>
    rw [emitAll_cons]
    show h.ticks ≤ ((h.emit r).1.emitAll rs).1.ticks
    refine le_trans (emit_ticks_mono h r hle) ?_
    refine ih (h.emit r).1 ?_
    rw [emit_total]
    exact emit_ticks_le h r hle

theorem emitAll_append (h : Handler) (rs rs' : List LogRecord) :
    h.emitAll (rs ++ rs') =
      (((h.emitAll rs).1.emitAll rs').1,
        (h.emitAll rs).2 ++ ((h.emitAll rs).1.emitAll rs').2) := by
  induction rs generalizing h with
  | nil => simp [Handler.emitAll]
  | cons r rs ih =>
    rw [List.cons_append, emitAll_cons, ih, emitAll_cons]
    simp [List.append_assoc]

/-- C2: across any sequence of `emit` calls, the tick counter starts at 0,
is monotonically non-decreasing, increments by exactly one (clamped to
`total`) on a matching record from the bound thread, is unchanged
otherwise, and never exceeds `self.total`, however many matching records
arrive. -/
theorem handler_tick_counter_invariants :
    (∀ n : Nat, (Handler.init n).ticks = 0) ∧
    (∀ (h : Handler) (r : LogRecord), h.threadId = some r.thread →
      pageLogMatch r.msg = true →
      (h.emit r).1.ticks = min (h.ticks + 1) h.total) ∧
    (∀ (h : Handler) (r : LogRecord),
      h.threadId ≠ some r.thread ∨ pageLogMatch r.msg = false →
      (h.emit r).1.ticks = h.ticks) ∧
    (∀ (n tid : Nat) (rs : List LogRecord),
      (((Handler.init n).bindThread tid).emitAll rs).1.ticks ≤
        (Handler.init n).total) ∧
    (∀ (n tid : Nat) (rs rs' : List LogRecord),
      (((Handler.init n).bindThread tid).emitAll rs).1.ticks ≤
        (((Handler.init n).bindThread tid).emitAll (rs ++ rs')).1.ticks) := by
  refine ⟨fun n => rfl, emit_ticks_match, emit_ticks_nomatch, ?_, ?_⟩
  · intro n tid rs
    exact emitAll_ticks_le _ rs (Nat.zero_le _)
  · intro n tid rs rs'
    rw [emitAll_append]
    refine emitAll_ticks_mono _ rs' ?_
    rw [emitAll_total]
    exact emitAll_ticks_le _ rs (Nat.zero_le _)

/-- C2 witness: the clamping step evaluated on a concrete handler. -/
theorem handler_tick_counter_invariants_witness :
    (Handler.mk 2 2 (some 7)).emit ⟨7, "(2/2) Page 2"⟩ =
      (⟨2, 2, some 7⟩, some (2, 2)) ∧
    ((Handler.mk 2 2 (some 7)).emit ⟨7, "(2/2) Page 2"⟩).1.ticks =
      min (2 + 1) 2 ∧
    ((Handler.mk 2 2 (some 7)).emit ⟨7, "no marker"⟩).1.ticks = 2 := by
  refine ⟨by decide, ?_, ?_⟩
  · exact handler_tick_counter_invariants.2.1 ⟨2, 2, some 7⟩ ⟨7, "(2/2) Page 2"⟩
      rfl (by decide)
  · exact handler_tick_counter_invariants.2.2.1 ⟨2, 2, some 7⟩ ⟨7, "no marker"⟩
      (Or.inr (by decide))

/-- C3: `emit` on an unbound handler, or on a record from a thread other
than the bound one, leaves the handler unchanged and schedules no
notification; hence a record from one job's thread never advances a
handler bound to a different thread. -/
theorem handler_drops_foreign_records :
    (∀ (h : Handler) (r : LogRecord),
      h.threadId = none ∨ h.threadId ≠ some r.thread →
      h.emit r = (h, none)) ∧
    (∀ (hA hB : Handler) (r : LogRecord) (tA tB : Nat), tA ≠ tB →
      hA.threadId = some tA → hB.threadId = some tB → r.thread = tA →
      hB.emit r = (hB, none)) := by
  refine ⟨emit_drop, ?_⟩
  intro hA hB r tA tB hne hA' hB' hr
  refine emit_drop hB r (Or.inr ?_)
  rw [hB', hr]
  intro hcon
  exact hne (Option.some.injEq _ _ ▸ hcon).symm

/-- C3 witness: a handler bound to thread 2 ignores a matching record from
thread 1, while a handler bound to thread 1 counts it. -/
theorem handler_drops_foreign_records_witness :
    (Handler.mk 6 0 (some 2)).emit ⟨1, "(1/3) Page 1"⟩ =
      (⟨6, 0, some 2⟩, none) ∧
    (Handler.mk 10 0 (some 1)).emit ⟨1, "(1/3) Page 1"⟩ =
      (⟨10, 1, some 1⟩, some (1, 10)) := by
  refine ⟨?_, by decide⟩
  exact handler_drops_foreign_records.2 ⟨10, 0, some 1⟩ ⟨6, 0, some 2⟩
    ⟨1, "(1/3) Page 1"⟩ 1 2 (by decide) rfl rfl rfl

theorem convert_err_eq (env : Env) (p : String) (o pg pw : Option String)
    (pl : Option (List Int)) (e : String)
    (hex : env.pdfExists = true)
    (hp : parsePagesOpt pg = .ok pl)
    (ha : (pyTruthyStr pw && env.doc.needsPass
        && !(env.doc.authOk (pw.getD ""))) = false)
    (hc : env.conversion = .error e) :
    convert env p o pg pw =
      ⟨dictException p (resolvedOutputPath p o) e,
        (if env.hasCtx then [(0, pagesToConvertOf pl env.doc.pageCount * 2)]
          else []) ++
        (if env.hasCtx then
          (((Handler.init (pagesToConvertOf pl env.doc.pageCount)).bindThread
              env.workerThread).emitAll env.logRecords).2
          else []),
        env.hasCtx, env.hasCtx, true,
        some (pagesToConvertOf pl env.doc.pageCount * 2)⟩ := by
  unfold convert
  rw [hex, hp, ha, hc]
  simp

theorem convert_ok_eq (env : Env) (p : String) (o pg pw : Option String)
    (pl : Option (List Int))
    (hex : env.pdfExists = true)
    (hp : parsePagesOpt pg = .ok pl)
    (ha : (pyTruthyStr pw && env.doc.needsPass
        && !(env.doc.authOk (pw.getD ""))) = false)
    (hc : env.conversion = .ok ()) :
    convert env p o pg pw =
      ⟨dictSuccess env p (resolvedOutputPath p o) pl env.doc.pageCount
          (pagesToConvertOf pl env.doc.pageCount),
        (if env.hasCtx then [(0, pagesToConvertOf pl env.doc.pageCount * 2)]
          else []) ++
        (if env.hasCtx then
          (((Handler.init (pagesToConvertOf pl env.doc.pageCount)).bindThread
              env.workerThread).emitAll env.logRecords).2
          else []) ++
        (if env.hasCtx then
          [(pagesToConvertOf pl env.doc.pageCount * 2,
            pagesToConvertOf pl env.doc.pageCount * 2)]
          else []),
        env.hasCtx, env.hasCtx, true,
        some (pagesToConvertOf pl env.doc.pageCount * 2)⟩ := by
  unfold convert
  rw [hex, hp, ha, hc]
  simp

theorem convert_notfound_eq (env : Env) (p : String) (o pg pw : Option String)
    (hex : env.pdfExists = false) :
    convert env p o pg pw = ⟨dictNotFound p, [], false, false, false, none⟩ := by
  unfold convert
  rw [hex]
  simp

theorem convert_parse_err_eq (env : Env) (p : String) (o pg pw : Option String)
    (e : String) (hex : env.pdfExists = true)
    (hp : parsePagesOpt pg = .error e) :
    convert env p o pg pw =
      ⟨dictException p (resolvedOutputPath p o) e, [], false, false, false,
        none⟩ := by
  unfold convert
  rw [hex, hp]
  simp

theorem convert_badpw_eq (env : Env) (p : String) (o pg pw : Option String)
    (pl : Option (List Int)) (hex : env.pdfExists = true)
    (hp : parsePagesOpt pg = .ok pl)
    (ha : (pyTruthyStr pw && env.doc.needsPass
        && !(env.doc.authOk (pw.getD ""))) = true) :
    convert env p o pg pw =
      ⟨dictInvalidPassword p, [], false, false, false, none⟩ := by
  unfold convert
  rw [hex, hp, ha]
  simp

/-- C1: on a run that completes normally with a progress context and
`pages_to_convert = N ≥ 1`, every notification carries total `2N`, the
first notification is `(0, 2N)` and the last is `(2N, 2N)`; with `N = 2`
and no matching log line the notifications are exactly `(0,4)` then
`(4,4)`. -/
theorem convert_notification_endpoints :
    (∀ (env : Env) (p : String) (o pg pw : Option String)
        (pl : Option (List Int)),
      env.pdfExists = true →
      parsePagesOpt pg = .ok pl →
      (pyTruthyStr pw && env.doc.needsPass
        && !(env.doc.authOk (pw.getD ""))) = false →
      env.conversion = .ok () →
      env.hasCtx = true →
      1 ≤ pagesToConvertOf pl env.doc.pageCount →
      (∀ q ∈ (convert env p o pg pw).notifications,
        q.2 = pagesToConvertOf pl env.doc.pageCount * 2) ∧
      (convert env p o pg pw).notifications.head? =
        some (0, pagesToConvertOf pl env.doc.pageCount * 2) ∧
      (convert env p o pg pw).notifications.getLast? =
        some (pagesToConvertOf pl env.doc.pageCount * 2,
          pagesToConvertOf pl env.doc.pageCount * 2)) ∧
    (convert envOkN2 "a.pdf" (some "a.docx") none none).notifications =
      [(0, 4), (4, 4)] := by
  constructor
  · intro env p o pg pw pl hex hp ha hc hcx hN
    rw [convert_ok_eq env p o pg pw pl hex hp ha hc]
    simp only [hcx, if_true]
    set N := pagesToConvertOf pl env.doc.pageCount with hNdef
    set hN2 := (((Handler.init N).bindThread env.workerThread).emitAll
      env.logRecords).2 with hN2def
    refine ⟨?_, ?_, ?_⟩
    · intro q hq
      simp only [List.mem_append, List.mem_singleton, List.mem_cons,
        List.not_mem_nil, or_false] at hq
      rcases hq with (hq | hq) | hq
      · rw [hq]
      · have htot : ((Handler.init N).bindThread env.workerThread).total =
          N * 2 := rfl
        have := emitAll_notif_total ((Handler.init N).bindThread
          env.workerThread) env.logRecords q (hN2def ▸ hq)
        rw [htot] at this
        exact this
      · rw [hq]
    · rfl
    · exact List.getLast?_concat _
  · rfl

/-- C1 witness: the general part evaluated on the concrete two-page,
no-marker environment. -/
theorem convert_notification_endpoints_witness :
    (convert envOkN2 "a.pdf" (some "a.docx") none none).notifications.head? =
      some (0, 4) ∧
    (convert envOkN2 "a.pdf" (some "a.docx") none none).notifications.getLast? =
      some (4, 4) := by
  have h := convert_notification_endpoints.1 envOkN2 "a.pdf" (some "a.docx")
    none none none rfl rfl rfl rfl rfl (by decide)
  exact ⟨h.2.1, h.2.2⟩

/-- C4: whenever `convert` attaches the progress handler to the root
logger, the handler is removed again before `convert` returns, on the
normal path and on the path where the blocking conversion call raised. -/
theorem convert_handler_always_detached :
    (∀ (env : Env) (p : String) (o pg pw : Option String),
      (convert env p o pg pw).handlerWasAttached = true →
      (convert env p o pg pw).handlerDetached = true) ∧
    (∀ (env : Env) (p : String) (o pg pw : Option String)
        (pl : Option (List Int)) (e : String),
      env.pdfExists = true →
      parsePagesOpt pg = .ok pl →
      (pyTruthyStr pw && env.doc.needsPass
        && !(env.doc.authOk (pw.getD ""))) = false →
      env.conversion = .error e →
      env.hasCtx = true →
      (convert env p o pg pw).handlerWasAttached = true ∧
      (convert env p o pg pw).handlerDetached = true) := by
  constructor
  · intro env p o pg pw
    cases hex : env.pdfExists with
    | false => rw [convert_notfound_eq env p o pg pw hex]; intro h; exact h
    | true =>
      cases hp : parsePagesOpt pg with
      | error e =>
        rw [convert_parse_err_eq env p o pg pw e hex hp]; intro h; exact h
      | ok pl =>
        cases ha : (pyTruthyStr pw && env.doc.needsPass
            && !(env.doc.authOk (pw.getD ""))) with
        | true =>
          rw [convert_badpw_eq env p o pg pw pl hex hp ha]; intro h; exact h
        | false =>
          cases hc : env.conversion with
          | error e =>
            rw [convert_err_eq env p o pg pw pl e hex hp ha hc]
            intro h; exact h
          | ok a =>
            cases a
            rw [convert_ok_eq env p o pg pw pl hex hp ha hc]
            intro h; exact h
  · intro env p o pg pw pl e hex hp ha hc hcx
    rw [convert_err_eq env p o pg pw pl e hex hp ha hc]
    exact ⟨hcx, hcx⟩

/-- C4 witness: a run whose conversion call raises, with a context
attached: the handler was attached and detached. -/
theorem convert_handler_always_detached_witness :
    (convert envFailingConv "f.pdf" (some "f.docx") none none).handlerWasAttached =
      true ∧
    (convert envFailingConv "f.pdf" (some "f.docx") none none).handlerDetached =
      true :=
  convert_handler_always_detached.2 envFailingConv "f.pdf" (some "f.docx")
    none none none "conversion failed" rfl rfl rfl rfl rfl

/-- C5: when the blocking conversion call raises, the exception is caught
at the tool boundary and `convert` returns a failure dictionary carrying
the raw error string and a human-readable message; none of the
success-only artifact fields (size, converted-page count, duration) are
populated. -/
theorem convert_conversion_failure_outcome :
    ∀ (env : Env) (p : String) (o pg pw : Option String)
      (pl : Option (List Int)) (e : String),
      env.pdfExists = true →
      parsePagesOpt pg = .ok pl →
      (pyTruthyStr pw && env.doc.needsPass
        && !(env.doc.authOk (pw.getD ""))) = false →
      env.conversion = .error e →
      (convert env p o pg pw).result =
        dictException p (resolvedOutputPath p o) e ∧
      (convert env p o pg pw).result.success = false ∧
      (convert env p o pg pw).result.error = some e ∧
      (convert env p o pg pw).result.message = "Error converting PDF: " ++ e ∧
      (convert env p o pg pw).result.size_mb = none ∧
      (convert env p o pg pw).result.pages_converted = none ∧
      (convert env p o pg pw).result.duration_seconds = none := by
  intro env p o pg pw pl e hex hp ha hc
  rw [convert_err_eq env p o pg pw pl e hex hp ha hc]
  exact ⟨rfl, rfl, rfl, rfl, rfl, rfl, rfl⟩

/-- C5 witness: the failing run evaluated concretely. -/
theorem convert_conversion_failure_outcome_witness :
    (convert envFailingConv "f.pdf" (some "f.docx") none none).result.success =
      false ∧
    (convert envFailingConv "f.pdf" (some "f.docx") none none).result.error =
      some "conversion failed" ∧
    (convert envFailingConv "f.pdf" (some "f.docx") none none).result.message =
      "Error converting PDF: conversion failed" := by
  have h := convert_conversion_failure_outcome envFailingConv "f.pdf"
    (some "f.docx") none none none "conversion failed" rfl rfl rfl rfl
  exact ⟨h.2.1, h.2.2.1, h.2.2.2.1⟩

/-- C6 counterexample: a protected input with no credential is NOT
rejected before dispatch: the worker thread is started (the conversion is
attempted) and the resulting failure is the conversion call's own error,
not an authentication failure. -/
theorem convert_missing_credential_dispatches :
    envEncryptedNoPw.doc.needsPass = true ∧
    (convert envEncryptedNoPw "e.pdf" (some "e.docx") none none).workerStarted =
      true ∧
    (convert envEncryptedNoPw "e.pdf" (some "e.docx") none none).result.message ≠
      "Invalid password for encrypted PDF" := by
  refine ⟨rfl, rfl, ?_⟩
  decide

/-- C6 (amended): a missing input, and a supplied-but-wrong credential on
a protected input, are rejected before dispatch — no worker thread and no
handler.  A protected input with a missing credential, however, proceeds
to dispatch and fails only inside the conversion call. -/
theorem convert_predispatch_failures :
    (∀ (env : Env) (p : String) (o pg pw : Option String),
      env.pdfExists = false →
      (convert env p o pg pw).result = dictNotFound p ∧
      (convert env p o pg pw).workerStarted = false ∧
      (convert env p o pg pw).handlerWasAttached = false ∧
      (convert env p o pg pw).notifications = []) ∧
    (∀ (env : Env) (p : String) (o pg pw : Option String)
        (pl : Option (List Int)),
      env.pdfExists = true →
      parsePagesOpt pg = .ok pl →
      (pyTruthyStr pw && env.doc.needsPass
        && !(env.doc.authOk (pw.getD ""))) = true →
      (convert env p o pg pw).result = dictInvalidPassword p ∧
      (convert env p o pg pw).workerStarted = false ∧
      (convert env p o pg pw).handlerWasAttached = false) := by
  constructor
  · intro env p o pg pw hex
    rw [convert_notfound_eq env p o pg pw hex]
    exact ⟨rfl, rfl, rfl, rfl⟩
  · intro env p o pg pw pl hex hp ha
    rw [convert_badpw_eq env p o pg pw pl hex hp ha]
    exact ⟨rfl, rfl, rfl⟩

/-- C6 amended-claim witness: both pre-dispatch rejections evaluated
concretely. -/
theorem convert_predispatch_failures_witness :
    (convert envMissingFile "m.pdf" none none none).workerStarted = false ∧
    (convert envEncryptedWrongPw "e.pdf" none none (some "guess")).result =
      dictInvalidPassword "e.pdf" :=
  ⟨(convert_predispatch_failures.1 envMissingFile "m.pdf" none none none
      rfl).2.1,
    (convert_predispatch_failures.2 envEncryptedWrongPw "e.pdf" none none
      (some "guess") none rfl rfl rfl).1⟩

/-- C9 counterexample: a job with `pages_to_convert = 0` IS dispatched
with a handler attached and `total_ticks = 0` (both `report_progress`
calls carry total 0). -/
theorem zero_unit_job_attaches_handler :
    (convert envZeroPages "z.pdf" (some "z.docx") none none).result.pages_converted =
      some 0 ∧
    (convert envZeroPages "z.pdf" (some "z.docx") none none).handlerWasAttached =
      true ∧
    (convert envZeroPages "z.pdf" (some "z.docx") none none).progressTotal =
      some 0 ∧
    (convert envZeroPages "z.pdf" (some "z.docx") none none).notifications =
      [(0, 0), (0, 0)] :=
  ⟨rfl, rfl, rfl, rfl⟩

/-- C9 (amended): when a dispatched job has `pages_to_convert ≥ 1` its
`progress_total` is positive; the handler, however, is attached whenever a
progress context is present, regardless of the unit count, so a zero-unit
job is still dispatched with total 0. -/
theorem dispatch_progress_total :
    (∀ (env : Env) (p : String) (o pg pw : Option String)
        (pl : Option (List Int)),
      env.pdfExists = true →
      parsePagesOpt pg = .ok pl →
      (pyTruthyStr pw && env.doc.needsPass
        && !(env.doc.authOk (pw.getD ""))) = false →
      1 ≤ pagesToConvertOf pl env.doc.pageCount →
      (convert env p o pg pw).progressTotal =
        some (pagesToConvertOf pl env.doc.pageCount * 2) ∧
      ∀ T, (convert env p o pg pw).progressTotal = some T → 0 < T) ∧
    (∀ (env : Env) (p : String) (o pg pw : Option String)
        (pl : Option (List Int)),
      env.pdfExists = true →
      parsePagesOpt pg = .ok pl →
      (pyTruthyStr pw && env.doc.needsPass
        && !(env.doc.authOk (pw.getD ""))) = false →
      (convert env p o pg pw).handlerWasAttached = env.hasCtx) := by
  constructor
  · intro env p o pg pw pl hex hp ha hN
    have key : (convert env p o pg pw).progressTotal =
        some (pagesToConvertOf pl env.doc.pageCount * 2) := by
      cases hc : env.conversion with
      | error e => rw [convert_err_eq env p o pg pw pl e hex hp ha hc]
      | ok a => cases a; rw [convert_ok_eq env p o pg pw pl hex hp ha hc]
    refine ⟨key, ?_⟩
    intro T hT
    rw [key] at hT
    have hTe : pagesToConvertOf pl env.doc.pageCount * 2 = T :=
      Option.some.injEq _ _ ▸ hT
    rw [← hTe]
    exact Nat.mul_pos hN (by norm_num)
  · intro env p o pg pw pl hex hp ha
    cases hc : env.conversion with
    | error e => rw [convert_err_eq env p o pg pw pl e hex hp ha hc]
    | ok a => cases a; rw [convert_ok_eq env p o pg pw pl hex hp ha hc]

/-- C9 amended-claim witness: a two-page job has dispatch total 4, and the
zero-page job still attaches a handler. -/
theorem dispatch_progress_total_witness :
    (convert envOkN2 "a.pdf" (some "a.docx") none none).progressTotal =
      some 4 ∧
    (convert envZeroPages "z.pdf" (some "z.docx") none none).handlerWasAttached =
      envZeroPages.hasCtx :=
  ⟨(dispatch_progress_total.1 envOkN2 "a.pdf" (some "a.docx") none none none
      rfl rfl rfl (by decide)).1,
    dispatch_progress_total.2 envZeroPages "z.pdf" (some "z.docx") none none
      none rfl rfl rfl⟩

/-- C8: the range form `0-2` parses to `[0,1,2]`, the comma form `1,3,5`
to `[1,3,5]`; an absent or empty selector leaves `pages_list = None`, so
`pages_to_convert` equals the document's total page count; a selector
without a dash always takes the comma form of the parser. -/
theorem pages_selector_forms :
    parsePagesStr "0-2" = .ok [0, 1, 2] ∧
    parsePagesStr "1,3,5" = .ok [1, 3, 5] ∧
    parsePagesOpt none = .ok none ∧
    parsePagesOpt (some "") = .ok none ∧
    (∀ t : Nat, pagesToConvertOf none t = t) ∧
    (∀ s : String, s.data.contains '-' = false →
      parsePagesStr s = parseCommas s) ∧
    (convert envOkN2 "a.pdf" (some "a.docx") none none).result.pages_converted =
      some 2 := by
  refine ⟨by rfl, by rfl, rfl, rfl, fun t => rfl, ?_, by rfl⟩
  intro s hs
  unfold parsePagesStr
  rw [hs]
  simp

/-- C8 witness: the no-dash branch evaluated on the comma selector. -/
theorem pages_selector_forms_witness :
    parsePagesStr "1,3,5" = parseCommas "1,3,5" :=
  pages_selector_forms.2.2.2.2.2.1 "1,3,5" (by decide)

/-- C10: any selector containing a dash is parsed as a range regardless of
commas, so the mixed selector `1,3-5` fails integer parsing and `convert`
returns a failure dictionary with the raw error, starting no worker and
converting no partial page set. -/
theorem mixed_selector_fails :
    (∀ s : String, s.data.contains '-' = true →
      parsePagesStr s = parseRange s) ∧
    (convert envOkN2 "a.pdf" (some "a.docx") (some "1,3-5") none).result.success =
      false ∧
    (convert envOkN2 "a.pdf" (some "a.docx") (some "1,3-5") none).result.error =
      some "invalid literal for int() with base 10: 1,3" ∧
    (convert envOkN2 "a.pdf" (some "a.docx") (some "1,3-5") none).result.message =
      "Error converting PDF: invalid literal for int() with base 10: 1,3" ∧
    (convert envOkN2 "a.pdf" (some "a.docx") (some "1,3-5") none).workerStarted =
      false := by
  refine ⟨?_, by rfl, by rfl, by rfl, by rfl⟩
  intro s hs
  unfold parsePagesStr
  rw [hs]
  simp

/-- C10 witness: the dash branch evaluated on the range selector. -/
theorem mixed_selector_fails_witness :
    parsePagesStr "0-2" = parseRange "0-2" :=
  mixed_selector_fails.1 "0-2" (by decide)
